import Mathlib

set_option maxHeartbeats 2000000
set_option maxRecDepth 4000

/-
Verification of the configuration-resolution and request-security pipeline
of the Task Management System repository (environment-config.js,
production-config-day5.js, and the security-configuration module).

JavaScript values are shallowly embedded as an inductive `Value`; objects
and arrays are encoded as cons chains so that all operations are plain
structural recursions that evaluate inside the kernel.  Process
environment variables are modelled as a partial map `EnvMap`, and the
cryptographically random generator is modelled as an oracle
`Nat → String` giving the hex encoding of each successive randomBytes
draw.  Fallible code (requireEnv throwing in production) returns Except.
-/

/-- A JavaScript runtime value.  Objects are ordered key/value cons chains
(vObjCons key value rest); arrays are cons chains (vArrCons head tail).
This flat encoding keeps every traversal structurally recursive. -/
inductive Value where
  | vNull : Value
  | vUndef : Value
  | vBool : Bool → Value
  | vNum : Int → Value
  | vStr : String → Value
  | vArrNil : Value
  | vArrCons : Value → Value → Value
  | vObjNil : Value
  | vObjCons : String → Value → Value → Value
deriving DecidableEq

open Value

/-- Build an object chain from a list of key/value pairs (JS object literal). -/
def objOf (l : List (String × Value)) : Value :=
  l.foldr (fun kv acc => vObjCons kv.1 kv.2 acc) vObjNil

/-- Build an array chain from a list of values (JS array literal). -/
def arrOf (l : List Value) : Value :=
  l.foldr (fun v acc => vArrCons v acc) vArrNil

/-- Process environment: a partial map from variable names to string values. -/
def EnvMap : Type := String → Option String

/-- JS truthiness of a value (null, undefined, false, 0 and the empty string
are falsy; every object and array is truthy). -/
def jsTruthy : Value → Bool
  | vNull => false
  | vUndef => false
  | vBool b => b
  | vNum n => n != 0
  | vStr s => s != ""
  | _ => true

/-- JS falsiness of an optional environment-variable value (`!value` is true
exactly when the variable is absent or holds the empty string). -/
def jsFalsyOpt (o : Option String) : Bool :=
  match o with
  | none => true
  | some s => s == ""

/-- JS `value || dflt` for an optional string (absent or empty falls back). -/
def jsOrStr (o : Option String) (dflt : String) : String :=
  match o with
  | some s => if s == "" then dflt else s
  | none => dflt

/-- JS `n || dflt` applied to a parseInt result: both NaN (none) and 0 are
falsy and fall back to the default. -/
def jsOrNum (o : Option Int) (dflt : Int) : Int :=
  match o with
  | some n => if n == 0 then dflt else n
  | none => dflt

/-- The whitespace characters stripped by the JS string trim (space, tab,
line feed, carriage return, vertical tab, form feed; ASCII fragment). -/
def wsChar (c : Char) : Bool :=
  c = ' ' || c = '\t' || c = '\n' || c = '\r' || c = Char.ofNat 11 || c = Char.ofNat 12

/-- JS String.prototype.trim, implemented structurally over the character list. -/
def jsTrim (s : String) : String :=
  String.mk (((s.data.dropWhile wsChar).reverse.dropWhile wsChar).reverse)

/-- Split a character list at every occurrence of a separator character
(JS String.prototype.split with a one-character separator). -/
def splitChar (sep : Char) : List Char → List Char → List (List Char)
  | [], cur => [cur.reverse]
  | c :: rest, cur =>
      if c = sep then cur.reverse :: splitChar sep rest []
      else splitChar sep rest (c :: cur)

/-- JS s.split(sep) for a one-character separator. -/
def jsSplit (sep : Char) (s : String) : List String :=
  (splitChar sep s.data []).map String.mk

/-- JS parseInt on a string: skip leading whitespace, optional sign, read
leading decimal digits; none models NaN (no digits found). -/
def parseIntJS (s : String) : Option Int :=
  let l := s.data.dropWhile wsChar
  let signAndRest : Bool × List Char :=
    match l with
    | '-' :: r => (true, r)
    | '+' :: r => (false, r)
    | _ => (false, l)
  let ds := signAndRest.2.takeWhile Char.isDigit
  if ds.isEmpty then none
  else
    let n : Nat := ds.foldl (fun acc c => acc * 10 + (c.toNat - 48)) 0
    some (if signAndRest.1 then -(n : Int) else (n : Int))

/-- JS parseInt applied to an environment variable (parseInt(undefined) is NaN). -/
def parseIntEnv (o : Option String) : Option Int :=
  o.bind parseIntJS

/-- Is a character a JS regex word character, i.e. matched by backslash-w. -/
def wordChar (c : Char) : Bool :=
  c.isAlphanum || c = '_'

/-- Is `pat` a prefix of `l` (character lists, exact case)? -/
def isPrefixChars : List Char → List Char → Bool
  | [], _ => true
  | _ :: _, [] => false
  | p :: ps, c :: cs => p == c && isPrefixChars ps cs

/-- Is `pat` a prefix of `l`, comparing case-insensitively (JS /i flag)? -/
def isPrefixCI : List Char → List Char → Bool
  | [], _ => true
  | _ :: _, [] => false
  | p :: ps, c :: cs => (p.toLower == c.toLower) && isPrefixCI ps cs

/-- Does the character list `l` contain `pat` as a contiguous substring
(JS String.prototype.includes)? -/
def containsSub : List Char → List Char → Bool
  | pat, [] => pat.isEmpty
  | pat, c :: rest => isPrefixChars pat (c :: rest) || containsSub pat rest

/-- Canonical array-index form of a property key: a decimal numeral with no
leading zero (JS only treats such keys as array indices). -/
def canonIndex (k : String) : Option Nat :=
  match k.data with
  | [] => none
  | c :: rest =>
      if (c :: rest).all Char.isDigit && (c != '0' || rest.isEmpty) then
        some ((c :: rest).foldl (fun acc ch => acc * 10 + (ch.toNat - 48)) 0)
      else none

/-- Length of an array chain. -/
def arrLen : Value → Nat
  | vArrCons _ t => arrLen t + 1
  | _ => 0

/-- Element of an array chain at an index (undefined when out of range). -/
def arrGet : Value → Nat → Value
  | vArrCons h _, 0 => h
  | vArrCons _ t, n + 1 => arrGet t n
  | _, _ => vUndef

/-- JS property access `v[k]` on a non-null value: object chains look the key
up, arrays and strings expose length and canonical index properties, numbers
and booleans have no own properties of interest.  (Access on null or
undefined throws in JS unless optional chaining is used; the resolver only
reaches those through `?.`, handled in `getStep`.) -/
def accessProp : Value → String → Value
  | vObjCons k2 v rest, k => if k2 == k then v else accessProp rest k
  | vObjNil, _ => vUndef
  | vArrCons h t, k =>
      if k == "length" then vNum ((arrLen (vArrCons h t) : Nat) : Int)
      else
        match canonIndex k with
        | some i => arrGet (vArrCons h t) i
        | none => vUndef
  | vArrNil, k => if k == "length" then vNum 0 else vUndef
  | vStr s, k =>
      if k == "length" then vNum ((s.length : Nat) : Int)
      else
        match canonIndex k with
        | some i =>
            match s.data.get? i with
            | some c => vStr (String.mk [c])
            | none => vUndef
        | none => vUndef
  | _, _ => vUndef

/-- One step of the dotted-path accessor: `obj?.[key]` — optional chaining
yields undefined on null/undefined instead of throwing. -/
def getStep (acc : Value) (k : String) : Value :=
  match acc with
  | vNull => vUndef
  | vUndef => vUndef
  | v => accessProp v k

/-- EnvironmentConfig.get / ConfigManager.get:
`path.split(".").reduce((obj, key) => obj?.[key], this.config)`. -/
def get (path : String) (c : Value) : Value :=
  (jsSplit '.' path).foldl getStep c

/-- Index-keyed object chain built from an array chain (object spread of an
array: `{...[a, b]}` is an object with keys "0", "1", ...). -/
def arrIdxObj (i : Nat) : Value → Value
  | vArrCons h t => vObjCons (toString i) h (arrIdxObj (i + 1) t)
  | _ => vObjNil

/-- Index-keyed object chain built from a string (object spread of a string
yields its characters under index keys). -/
def strIdxObj (i : Nat) : List Char → Value
  | [] => vObjNil
  | c :: r => vObjCons (toString i) (vStr (String.mk [c])) (strIdxObj (i + 1) r)

/-- JS object spread `{...base}`: a shallow copy of an object keeps its
entries in order; spreading an array or a string copies their index
properties; spreading any other value yields an empty object. -/
def spreadToObj : Value → Value
  | vObjCons k v rest => vObjCons k v (spreadToObj rest)
  | vObjNil => vObjNil
  | vArrCons h t => arrIdxObj 0 (vArrCons h t)
  | vArrNil => vObjNil
  | vStr s => strIdxObj 0 s.data
  | _ => vObjNil

/-- JS `result[key] = v` on an object built by spread-and-assign: an existing
key is updated in place (keeping insertion order), a new key is appended. -/
def setKey : Value → String → Value → Value
  | vObjCons k2 v2 rest, k, v =>
      if k2 == k then vObjCons k2 v rest else vObjCons k2 v2 (setKey rest k v)
  | _, k, v => vObjCons k v vObjNil

/-- JS `base[key] || {}` as used by mergeConfigurations. -/
def orEmptyObj (v : Value) : Value :=
  if jsTruthy v then v else vObjNil

/-- Loop body of EnvironmentConfig.mergeConfigurations: iterate the
override keys in order; a (non-null, non-array) object value recurses into
`base[key] || {}`, every other value replaces the base value.  The shallow
copy of the base has already been placed in `result`. -/
def mergeGo (base result override : Value) : Value :=
  match override with
  | vObjCons k v rest =>
      match v with
      | vObjCons k2 v2 r2 =>
          mergeGo base
            (setKey result k
              (mergeGo (orEmptyObj (accessProp base k))
                (spreadToObj (orEmptyObj (accessProp base k)))
                (vObjCons k2 v2 r2)))
            rest
      | vObjNil =>
          -- merging the empty object fragment degenerates to the shallow
          -- copy of base[key] || {}
          mergeGo base (setKey result k (spreadToObj (orEmptyObj (accessProp base k)))) rest
      | _ => mergeGo base (setKey result k v) rest
  | _ => result

/-- EnvironmentConfig.mergeConfigurations(base, override): deep merge with
`const result = {...base}` followed by the key loop of `mergeGo`. -/
def mergeConfigurations (base override : Value) : Value :=
  mergeGo base (spreadToObj base) override

/-- Is a value a plain (non-null, non-array) object — the condition
`override[key] && typeof override[key] === "object" && !Array.isArray(...)`
under which the merge recurses? -/
def isObj : Value → Bool
  | vObjNil => true
  | vObjCons _ _ _ => true
  | _ => false

/-- Does an object chain have an entry for the key? -/
def objMem : Value → String → Bool
  | vObjCons k _ rest, key => k == key || objMem rest key
  | _, _ => false

/-- Does an object chain bind every key at most once (always true of a real
JS object)? -/
def objNodup : Value → Bool
  | vObjCons k _ rest => !objMem rest k && objNodup rest
  | _ => true

/-- Is the value a well-formed object chain all the way down its spine? -/
def isObjChain : Value → Bool
  | vObjNil => true
  | vObjCons _ _ rest => isObjChain rest
  | _ => false

/-- The value the merge stores for an override entry `(k, v)`: a plain
object recurses into `base[k] || {}`, anything else replaces. -/
def overrideSlot (base : Value) (k : String) (v : Value) : Value :=
  match v with
  | vObjCons k2 v2 r2 =>
      mergeConfigurations (orEmptyObj (accessProp base k)) (vObjCons k2 v2 r2)
  | vObjNil => spreadToObj (orEmptyObj (accessProp base k))
  | _ => v

/-- First index (if any) at which the closing tag, compared
case-insensitively, begins. -/
def findClose : List Char → Option Nat
  | [] => none
  | c :: rest =>
      if isPrefixCI ("</script>".data) (c :: rest) then some 0
      else (findClose rest).map (fun n => n + 1)

/-- Length of the script-block match starting at the head of `l`, if any.
The source regex matches an opening script tag at a word boundary through
the first following closing tag (both case-insensitive); with no closing
tag there is no match. -/
def scriptMatchLen (l : List Char) : Option Nat :=
  if isPrefixCI ("<script".data) l then
    let after := l.drop 7
    let boundary : Bool :=
      match after with
      | [] => true
      | c :: _ => !wordChar c
    if boundary then
      match findClose after with
      | some i => some (7 + i + 9)
      | none => none
    else none
  else none

/-- One global left-to-right pass removing script blocks (fuel is the list
length; each step consumes at least one character). -/
def removeScriptFuel : Nat → List Char → List Char
  | _, [] => []
  | 0, l => l
  | fuel + 1, c :: rest =>
      match scriptMatchLen (c :: rest) with
      | some n => removeScriptFuel fuel ((c :: rest).drop n)
      | none => c :: removeScriptFuel fuel rest

/-- One global left-to-right pass removing a literal pattern
case-insensitively (the `javascript:` scheme); as in JS replace, scanning
resumes after the removed match and already-emitted text is not rescanned. -/
def removeLitCIFuel (pat : List Char) : Nat → List Char → List Char
  | _, [] => []
  | 0, l => l
  | fuel + 1, c :: rest =>
      if isPrefixCI pat (c :: rest) then removeLitCIFuel pat fuel ((c :: rest).drop pat.length)
      else c :: removeLitCIFuel pat fuel rest

/-- Length of an inline-event-handler match at the head of `l`: the source
regex is on, then one or more word characters (greedy), then optional
whitespace, then an equals sign, case-insensitive. -/
def evtMatchLen (l : List Char) : Option Nat :=
  match l with
  | a :: b :: rest =>
      if (a.toLower == 'o') && (b.toLower == 'n') then
        let w := rest.takeWhile wordChar
        if w.isEmpty then none
        else
          let after := rest.drop w.length
          let sp := after.takeWhile wsChar
          match after.drop sp.length with
          | '=' :: _ => some (2 + w.length + sp.length + 1)
          | _ => none
      else none
  | _ => none

/-- One global left-to-right pass removing inline-event-handler patterns. -/
def removeEvtFuel : Nat → List Char → List Char
  | _, [] => []
  | 0, l => l
  | fuel + 1, c :: rest =>
      match evtMatchLen (c :: rest) with
      | some n => removeEvtFuel fuel ((c :: rest).drop n)
      | none => c :: removeEvtFuel fuel rest

/-- The per-string transform of SecurityConfig.sanitizeInput: remove script
blocks, then javascript: scheme prefixes, then inline event-handler
patterns, then trim — each a single global replace pass, in source order. -/
def sanitizeString (s : String) : String :=
  let l1 := removeScriptFuel s.data.length s.data
  let l2 := removeLitCIFuel ("javascript:".data) l1.length l1
  let l3 := removeEvtFuel l2.length l2
  jsTrim (String.mk l3)

/-- SecurityConfig.sanitizeInput(obj): returns non-objects unchanged (the
early return covers null, strings, numbers at top level); for objects and
arrays it rewrites every string property in place and recurses into every
property of object type (the JS typeof-object branch, which is a no-op on
null). -/
def sanitizeInput : Value → Value
  | vObjCons k (vStr s) rest => vObjCons k (vStr (sanitizeString s)) (sanitizeInput rest)
  | vObjCons k (vNum n) rest => vObjCons k (vNum n) (sanitizeInput rest)
  | vObjCons k (vBool b) rest => vObjCons k (vBool b) (sanitizeInput rest)
  | vObjCons k vUndef rest => vObjCons k vUndef (sanitizeInput rest)
  | vObjCons k val rest => vObjCons k (sanitizeInput val) (sanitizeInput rest)
  | vArrCons (vStr s) rest => vArrCons (vStr (sanitizeString s)) (sanitizeInput rest)
  | vArrCons (vNum n) rest => vArrCons (vNum n) (sanitizeInput rest)
  | vArrCons (vBool b) rest => vArrCons (vBool b) (sanitizeInput rest)
  | vArrCons vUndef rest => vArrCons vUndef (sanitizeInput rest)
  | vArrCons val rest => vArrCons (sanitizeInput val) (sanitizeInput rest)
  | v => v

/-- Every string leaf reachable by the sanitizer is already a fixed point of
the per-string transform. -/
def allFixed : Value → Bool
  | vObjCons _ (vStr s) rest => (sanitizeString s == s) && allFixed rest
  | vObjCons _ (vNum _) rest => allFixed rest
  | vObjCons _ (vBool _) rest => allFixed rest
  | vObjCons _ vUndef rest => allFixed rest
  | vObjCons _ val rest => allFixed val && allFixed rest
  | vArrCons (vStr s) rest => (sanitizeString s == s) && allFixed rest
  | vArrCons (vNum _) rest => allFixed rest
  | vArrCons (vBool _) rest => allFixed rest
  | vArrCons vUndef rest => allFixed rest
  | vArrCons val rest => allFixed val && allFixed rest
  | _ => true

/-- EnvironmentConfig.requireEnv(envVar): throws when the variable is falsy
and NODE_ENV is production; otherwise returns the value, falling back to
the literal string not-set when the variable is falsy. -/
def requireEnv (envv : EnvMap) (envVar : String) : Except String String :=
  if jsFalsyOpt (envv envVar) && (envv "NODE_ENV" == some "production") then
    Except.error ("Required environment variable " ++ envVar ++ " is not set")
  else
    Except.ok
      (match envv envVar with
       | some s => if s == "" then "not-set" else s
       | none => "not-set")

/-- EnvironmentConfig.generateSecureSecret /
SecurityConfig.generateSecureSecret: crypto.randomBytes(64).toString(hex).
The randomness is modelled as an oracle input: the caller passes the hex
encoding of the next 64 random bytes (a 128-hex-character string). -/
def generateSecureSecret (randomHex : String) : String :=
  randomHex

/-- EnvironmentConfig.getEnvArray(envVar, defaultValue): a falsy variable
yields the default; otherwise split on commas, trim every entry, and drop
the falsy (empty) entries. -/
def getEnvArray (envv : EnvMap) (envVar : String) (dflt : List String) : List String :=
  match envv envVar with
  | none => dflt
  | some s =>
      if s == "" then dflt
      else ((jsSplit ',' s).map jsTrim).filter (fun x => x != "")

/-- An optional environment value stored directly in an object literal
(an absent variable is stored as undefined). -/
def optToValue : Option String → Value
  | some s => vStr s
  | none => vUndef

/-- EnvironmentConfig.getBaseConfiguration: the hard-coded base defaults
tree (common to all environments). -/
def getBaseConfiguration (envv : EnvMap) : Value :=
  objOf [
    ("app", objOf [
      ("name", vStr "Task Management System"),
      ("version", vStr (jsOrStr (envv "npm_package_version") "1.0.0")),
      ("description", vStr "A production-ready task management application")]),
    ("server", objOf [
      ("host", vStr "0.0.0.0"),
      ("port", vNum (jsOrNum (parseIntEnv (envv "PORT")) 3000)),
      ("timeout", vNum 30000),
      ("keepAliveTimeout", vNum 5000)]),
    ("security", objOf [
      ("bcryptRounds", vNum 12),
      ("jwtExpiresIn", vStr "24h"),
      ("sessionMaxAge", vNum 86400000),
      ("rateLimitWindow", vNum 900000),
      ("rateLimitMax", vNum 100),
      ("corsOrigins", arrOf []),
      ("trustedProxies", vNum 1)]),
    ("logging", objOf [
      ("level", vStr "info"),
      ("format", vStr "combined"),
      ("enableConsole", vBool true),
      ("enableFile", vBool true),
      ("maxFiles", vNum 5),
      ("maxSize", vStr "10m")]),
    ("monitoring", objOf [
      ("enabled", vBool true),
      ("healthCheckPath", vStr "/health"),
      ("metricsPath", vStr "/metrics"),
      ("readinessPath", vStr "/ready"),
      ("livenessPath", vStr "/live")]),
    ("performance", objOf [
      ("compressionEnabled", vBool true),
      ("compressionLevel", vNum 6),
      ("cacheMaxAge", vNum 86400),
      ("staticCacheMaxAge", vNum 31536000),
      ("etag", vBool true),
      ("lastModified", vBool true)]),
    ("database", objOf [
      ("type", vStr "memory"),
      ("connectionTimeout", vNum 10000),
      ("queryTimeout", vNum 30000),
      ("maxConnections", vNum 10)]),
    ("redis", objOf [
      ("enabled", vBool false),
      ("host", vStr "localhost"),
      ("port", vNum 6379),
      ("password", vNull),
      ("db", vNum 0),
      ("keyPrefix", vStr "task-manager:"),
      ("connectTimeout", vNum 10000)]),
    ("email", objOf [
      ("enabled", vBool false),
      ("provider", vStr "smtp"),
      ("from", vStr "noreply@taskmanager.com")]),
    ("storage", objOf [
      ("type", vStr "local"),
      ("maxFileSize", vStr "10mb"),
      ("allowedTypes", arrOf [vStr "image/jpeg", vStr "image/png", vStr "image/gif",
        vStr "application/pdf"])]),
    ("features", objOf [
      ("registration", vBool true),
      ("emailVerification", vBool false),
      ("passwordReset", vBool true),
      ("fileUpload", vBool false),
      ("notifications", vBool false),
      ("analytics", vBool false)])]

/-- EnvironmentConfig.getDevelopmentConfig: the development overlay
(fixed literal secrets, permissive CORS and rate limit). -/
def getDevelopmentConfig : Value :=
  objOf [
    ("server", objOf [("port", vNum 3000)]),
    ("security", objOf [
      ("corsOrigins", arrOf [vStr "http://localhost:3000", vStr "http://localhost:8080",
        vStr "http://127.0.0.1:3000"]),
      ("rateLimitMax", vNum 1000),
      ("sessionSecret", vStr "dev-session-secret-change-in-production"),
      ("jwtSecret", vStr "dev-jwt-secret-change-in-production")]),
    ("logging", objOf [
      ("level", vStr "debug"),
      ("format", vStr "dev"),
      ("enableConsole", vBool true),
      ("enableFile", vBool false)]),
    ("performance", objOf [
      ("cacheMaxAge", vNum 0),
      ("compressionEnabled", vBool false)]),
    ("database", objOf [
      ("type", vStr "memory"),
      ("logging", vBool true)]),
    ("features", objOf [
      ("registration", vBool true),
      ("emailVerification", vBool false),
      ("analytics", vBool false)]),
    ("hotReload", vBool true),
    ("debugMode", vBool true),
    ("mockExternalServices", vBool true)]

/-- EnvironmentConfig.getTestConfig: the test overlay (port 0 requests an
OS-assigned random port). -/
def getTestConfig : Value :=
  objOf [
    ("server", objOf [("port", vNum 0)]),
    ("security", objOf [
      ("corsOrigins", arrOf [vStr "http://localhost"]),
      ("rateLimitMax", vNum 10000),
      ("sessionSecret", vStr "test-session-secret"),
      ("jwtSecret", vStr "test-jwt-secret"),
      ("bcryptRounds", vNum 4)]),
    ("logging", objOf [
      ("level", vStr "error"),
      ("enableConsole", vBool false),
      ("enableFile", vBool false)]),
    ("performance", objOf [
      ("compressionEnabled", vBool false),
      ("cacheMaxAge", vNum 0)]),
    ("database", objOf [
      ("type", vStr "memory"),
      ("logging", vBool false)]),
    ("monitoring", objOf [("enabled", vBool false)]),
    ("features", objOf [
      ("registration", vBool true),
      ("emailVerification", vBool false),
      ("analytics", vBool false)]),
    ("testTimeout", vNum 30000),
    ("mockExternalServices", vBool true),
    ("seedTestData", vBool true)]

/-- EnvironmentConfig.getStagingConfig: the staging overlay.  When
SESSION_SECRET or JWT_SECRET is falsy the code draws a fresh random secret
from generateSecureSecret; the draws consume the oracle in evaluation
order (sessionSecret first, then jwtSecret). -/
def getStagingConfig (envv : EnvMap) (rng : Nat → String) : Value :=
  let sessionMissing := jsFalsyOpt (envv "SESSION_SECRET")
  let sessionSecret :=
    if sessionMissing then generateSecureSecret (rng 0)
    else (envv "SESSION_SECRET").getD ""
  let jwtSecret :=
    if jsFalsyOpt (envv "JWT_SECRET") then
      generateSecureSecret (rng (if sessionMissing then 1 else 0))
    else (envv "JWT_SECRET").getD ""
  objOf [
    ("security", objOf [
      ("corsOrigins", arrOf ((getEnvArray envv "CORS_ORIGINS"
        ["https://staging.taskmanager.com"]).map vStr)),
      ("sessionSecret", vStr sessionSecret),
      ("jwtSecret", vStr jwtSecret),
      ("rateLimitMax", vNum 200)]),
    ("logging", objOf [
      ("level", vStr "info"),
      ("format", vStr "combined"),
      ("enableFile", vBool true)]),
    ("performance", objOf [
      ("compressionEnabled", vBool true),
      ("cacheMaxAge", vNum 3600)]),
    ("database", objOf [
      ("type", vStr (jsOrStr (envv "DATABASE_TYPE") "postgresql")),
      ("url", optToValue (envv "DATABASE_URL")),
      ("ssl", vBool (envv "DATABASE_SSL" == some "true")),
      ("logging", vBool false)]),
    ("redis", objOf [
      ("enabled", vBool (!jsFalsyOpt (envv "REDIS_URL"))),
      ("url", optToValue (envv "REDIS_URL"))]),
    ("email", objOf [
      ("enabled", vBool true),
      ("provider", vStr (jsOrStr (envv "EMAIL_PROVIDER") "smtp")),
      ("apiKey", optToValue (envv "EMAIL_API_KEY")),
      ("from", vStr (jsOrStr (envv "EMAIL_FROM") "staging@taskmanager.com"))]),
    ("monitoring", objOf [
      ("enabled", vBool true),
      ("alerting", vBool false)]),
    ("features", objOf [
      ("registration", vBool true),
      ("emailVerification", vBool true),
      ("analytics", vBool true)]),
    ("debugHeaders", vBool true),
    ("performanceLogging", vBool true)]

/-- EnvironmentConfig.getProductionConfig: the production overlay.  The
object literal evaluates requireEnv calls in field order, so the first
missing required variable aborts resolution with its error. -/
def getProductionConfig (envv : EnvMap) : Except String Value := do
  let sessionSecret ← requireEnv envv "SESSION_SECRET"
  let jwtSecret ← requireEnv envv "JWT_SECRET"
  let databaseUrl ← requireEnv envv "DATABASE_URL"
  let emailApiKey ← requireEnv envv "EMAIL_API_KEY"
  Except.ok (objOf [
    ("security", objOf [
      ("corsOrigins", arrOf ((getEnvArray envv "CORS_ORIGINS"
        ["https://taskmanager.com"]).map vStr)),
      ("sessionSecret", vStr sessionSecret),
      ("jwtSecret", vStr jwtSecret),
      ("rateLimitMax", vNum 50),
      ("trustedProxies", vNum (jsOrNum (parseIntEnv (envv "TRUSTED_PROXIES")) 1))]),
    ("logging", objOf [
      ("level", vStr (jsOrStr (envv "LOG_LEVEL") "warn")),
      ("format", vStr "combined"),
      ("enableFile", vBool true),
      ("enableConsole", vBool (envv "ENABLE_CONSOLE_LOGGING" == some "true"))]),
    ("performance", objOf [
      ("compressionEnabled", vBool true),
      ("compressionLevel", vNum 9),
      ("cacheMaxAge", vNum 86400)]),
    ("database", objOf [
      ("type", vStr (jsOrStr (envv "DATABASE_TYPE") "postgresql")),
      ("url", vStr databaseUrl),
      ("ssl", vBool (envv "DATABASE_SSL" != some "false")),
      ("maxConnections", vNum (jsOrNum (parseIntEnv (envv "DB_MAX_CONNECTIONS")) 20)),
      ("logging", vBool false)]),
    ("redis", objOf [
      ("enabled", vBool (!jsFalsyOpt (envv "REDIS_URL"))),
      ("url", optToValue (envv "REDIS_URL")),
      ("password", optToValue (envv "REDIS_PASSWORD")),
      ("tls", vBool (envv "REDIS_TLS" == some "true"))]),
    ("email", objOf [
      ("enabled", vBool true),
      ("provider", vStr (jsOrStr (envv "EMAIL_PROVIDER") "sendgrid")),
      ("apiKey", vStr emailApiKey),
      ("from", vStr (jsOrStr (envv "EMAIL_FROM") "noreply@taskmanager.com"))]),
    ("storage", objOf [
      ("type", vStr (jsOrStr (envv "STORAGE_TYPE") "s3")),
      ("bucket", optToValue (envv "S3_BUCKET")),
      ("region", vStr (jsOrStr (envv "AWS_REGION") "us-east-1"))]),
    ("monitoring", objOf [
      ("enabled", vBool true),
      ("alerting", vBool true),
      ("metricsEndpoint", optToValue (envv "METRICS_ENDPOINT")),
      ("alertWebhook", optToValue (envv "ALERT_WEBHOOK_URL"))]),
    ("features", objOf [
      ("registration", vBool (envv "ENABLE_REGISTRATION" != some "false")),
      ("emailVerification", vBool true),
      ("analytics", vBool true),
      ("notifications", vBool true)]),
    ("gracefulShutdownTimeout", vNum 30000),
    ("healthCheckTimeout", vNum 5000),
    ("enableMetrics", vBool true),
    ("enableTracing", vBool (envv "ENABLE_TRACING" == some "true"))])

/-- EnvironmentConfig.getEnvironmentConfiguration: the JS object literal
builds all four environment configurations eagerly (so a throwing
getProductionConfig aborts resolution for every environment, and the
staging overlay consumes the randomness oracle on every call), then
selects configurations[environment] with an empty-object fallback. -/
def getEnvironmentConfiguration (environment : String) (envv : EnvMap)
    (rng : Nat → String) : Except String Value :=
  match getProductionConfig envv with
  | Except.error e => Except.error e
  | Except.ok prodConfig =>
      let configurations : List (String × Value) :=
        [("development", getDevelopmentConfig),
         ("test", getTestConfig),
         ("staging", getStagingConfig envv rng),
         ("production", prodConfig)]
      Except.ok ((configurations.lookup environment).getD vObjNil)

/-- EnvironmentConfig.loadConfiguration: deep-merge the base defaults with
the selected environment overlay (ConfigResolver.resolve of the spec). -/
def loadConfiguration (environment : String) (envv : EnvMap)
    (rng : Nat → String) : Except String Value :=
  match getEnvironmentConfiguration environment envv rng with
  | Except.error e => Except.error e
  | Except.ok envConfig =>
      Except.ok (mergeConfigurations (getBaseConfiguration envv) envConfig)

/-- Does a string value contain the substring (used for the
secret.includes check on a truthy secret; non-strings never match here). -/
def valueContainsStr (v : Value) (pat : String) : Bool :=
  match v with
  | vStr s => containsSub pat.data s.data
  | _ => false

/-- JS `x.length === 0` for the values the validator meets (arrays; an
empty string also has length 0). -/
def jsLengthIsZero : Value → Bool
  | vArrNil => true
  | vArrCons _ _ => false
  | vStr s => s == ""
  | _ => false

/-- EnvironmentConfig.validateConfiguration, as the list of collected error
messages (the constructor throws when this list is non-empty).  Checks in
source order: production secret and CORS checks, port range, database URL,
email API key. -/
def validateConfiguration (config : Value) (environment : String) : List String :=
  let security := accessProp config "security"
  let sessionSecret := accessProp security "sessionSecret"
  let jwtSecret := accessProp security "jwtSecret"
  let corsOrigins := accessProp security "corsOrigins"
  let prodErrors :=
    if environment == "production" then
      (if !jsTruthy sessionSecret || valueContainsStr sessionSecret "dev-" then
        ["Production requires a secure SESSION_SECRET"] else []) ++
      (if !jsTruthy jwtSecret || valueContainsStr jwtSecret "dev-" then
        ["Production requires a secure JWT_SECRET"] else []) ++
      (if jsLengthIsZero corsOrigins then
        ["Production requires CORS_ORIGINS to be configured"] else [])
    else []
  let port := accessProp (accessProp config "server") "port"
  let portErrors :=
    match port with
    | vNum n =>
        -- `if (port && (port < 1 || port > 65535))`: a falsy port (0 or
        -- absent) short-circuits and is never flagged
        if n != 0 && (decide (n < 1) || decide (65535 < n)) then
          ["Invalid port number: " ++ toString n]
        else []
    | _ => []
  let database := accessProp config "database"
  let dbErrors :=
    if (match accessProp database "type" with
        | vStr s => s != "memory"
        | _ => true) && !jsTruthy (accessProp database "url") then
      ["Database URL is required for non-memory databases"]
    else []
  let email := accessProp config "email"
  let emailErrors :=
    if jsTruthy (accessProp email "enabled") && !jsTruthy (accessProp email "apiKey")
        && environment == "production" then
      ["Email API key is required when email is enabled in production"]
    else []
  prodErrors ++ portErrors ++ dbErrors ++ emailErrors

/-- SecurityConfig.validateConfig (security-configuration module): length
checks on both secrets, non-empty CORS origin array, positive rate limit.
The corsOrigins argument models the always-array field, so the
Array.isArray guard of the source is satisfied. -/
def validateConfig (sessionSecret jwtSecret : String) (corsOrigins : List String)
    (rateLimitMax : Int) : List String :=
  (if sessionSecret == "" || decide (sessionSecret.length < 32) then
    ["Session secret must be at least 32 characters long"] else []) ++
  (if jwtSecret == "" || decide (jwtSecret.length < 32) then
    ["JWT secret must be at least 32 characters long"] else []) ++
  (if corsOrigins.isEmpty then
    ["CORS origins must be a non-empty array"] else []) ++
  (if decide (rateLimitMax < 1) then
    ["Rate limit max must be positive"] else [])

/-- Remove the listed properties from an object chain (JS delete). -/
def deleteProps (keys : List String) : Value → Value
  | vObjCons k val rest =>
      if keys.contains k then deleteProps keys rest
      else vObjCons k val (deleteProps keys rest)
  | other => other

/-- Replace the value stored under a key of an object chain. -/
def updateProp (v : Value) (k : String) (f : Value → Value) : Value :=
  match v with
  | vObjCons k2 val rest =>
      if k2 == k then vObjCons k2 (f val) rest
      else vObjCons k2 val (updateProp rest k f)
  | other => other

/-- One scrub step of EnvironmentConfig.getSummary: `if (summary.d) delete
summary.d.k`.  Because `const summary = {...this.config}` is only a shallow
copy, summary.d is the same object as config.d, so the delete also mutates
the stored configuration; the step is therefore applied to the (shared)
configuration tree. -/
def scrubDomain (config : Value) (domain : String) (keys : List String) : Value :=
  if jsTruthy (accessProp config domain) then
    updateProp config domain (deleteProps keys)
  else config

/-- EnvironmentConfig.getSummary: returns the summary and the stored
configuration as it is left after the call.  The shallow copy shares every
nested domain object with the stored configuration, so the sensitive-field
deletes reach both; top-level keys are never deleted, hence both results
are the same scrubbed tree. -/
def getSummary (config : Value) : Value × Value :=
  let scrubbed :=
    scrubDomain
      (scrubDomain
        (scrubDomain
          (scrubDomain config "security" ["sessionSecret", "jwtSecret"])
          "database" ["url", "password"])
        "redis" ["password", "url"])
      "email" ["apiKey"]
  (scrubbed, scrubbed)

/-- Options object accepted by SecurityConfig.createRateLimiter (only the
fields relevant to windowing and skipping are modelled; the key generator
and message payload do not affect which requests are limited). -/
structure RateLimiterOptions where
  windowMs : Option Int := none
  max : Option Int := none
  message : Option String := none
  skip : Option (String → Bool) := none

/-- The limiter configuration produced by createRateLimiter: window, max,
and the skip predicate over the request path. -/
structure RateLimiter where
  windowMs : Int
  max : Int
  skip : String → Bool

/-- SecurityConfig.createRateLimiter(options): window and max fall back to
the configured values through JS `||` (so an explicit 0 also falls back);
the skip predicate defaults to exempting the health and metrics paths. -/
def createRateLimiter (rateLimitWindow rateLimitMax : Int)
    (options : RateLimiterOptions) : RateLimiter :=
  { windowMs := jsOrNum options.windowMs rateLimitWindow
    max := jsOrNum options.max rateLimitMax
    skip :=
      match options.skip with
      | some f => f
      | none => fun path => path == "/health" || path == "/metrics" }

/-- SecurityConfig.createStrictRateLimiter: createRateLimiter with a fixed
15-minute window and max 5, a custom message, and no skip override. -/
def createStrictRateLimiter (rateLimitWindow rateLimitMax : Int) : RateLimiter :=
  createRateLimiter rateLimitWindow rateLimitMax
    { windowMs := some 900000
      max := some 5
      message := some "Too many attempts, please try again later." }

/-- ConfigManager (production-config-day5) production overlay corsOrigins:
`process.env.CORS_ORIGINS?.split(",") || []` — split on commas with no
trimming and no filtering of empty entries; an absent variable yields the
empty list. -/
def configManagerProductionCors (envv : EnvMap) : List String :=
  match envv "CORS_ORIGINS" with
  | some s => jsSplit ',' s
  | none => []

/-- Unwrap a resolution result, with a default for the error case. -/
def okOr (e : Except String Value) (dflt : Value) : Value :=
  match e with
  | Except.ok v => v
  | Except.error _ => dflt

/-- Field of the security domain of a resolved configuration. -/
def secOf (e : Except String Value) (k : String) : Value :=
  accessProp (accessProp (okOr e vObjNil) "security") k

/-- Look a key up in an object chain (none when absent). -/
def objLookup : Value → String → Option Value
  | vObjCons k v rest, key => if k == key then some v else objLookup rest key
  | _, _ => none

/-- Resolve a dotted path purely through nested object chains: some value
when every segment is found in an object, none as soon as a segment is
missing or the current value is not an object. -/
def chainObj : Value → List String → Option Value
  | c, [] => some c
  | c, key :: ks =>
      match objLookup c key with
      | some v => chainObj v ks
      | none => none

/-- An environment with no variables set. -/
def emptyEnv : EnvMap := fun _ => none

/-- A 64-character secret with no development placeholder in it. -/
def secret64 : String :=
  "0123456789abcdef0123456789abcdef0123456789abcdef0123456789abcdef"

/-- A complete production environment: NODE_ENV and all four required
variables set, CORS_ORIGINS left unset. -/
def prodEnvFull : EnvMap := fun n =>
  if n = "NODE_ENV" then some "production"
  else if n = "SESSION_SECRET" then some secret64
  else if n = "JWT_SECRET" then some secret64
  else if n = "DATABASE_URL" then some "postgres://db.example.com/prod"
  else if n = "EMAIL_API_KEY" then some "email-key-123"
  else none

/-- The production environment of prodEnvFull with CORS_ORIGINS set to a
comma-separated list with spaces and empty entries. -/
def prodEnvCors : EnvMap := fun n =>
  if n = "CORS_ORIGINS" then some " https://a.example , ,https://b.example "
  else prodEnvFull n

/-- A production NODE_ENV with no secrets set at all. -/
def prodEnvNoSecrets : EnvMap := fun n =>
  if n = "NODE_ENV" then some "production" else none


/-- Index-keyed object chains built from arrays are well-formed chains. -/
theorem isObjChain_arrIdxObj (v : Value) : ∀ i : Nat, isObjChain (arrIdxObj i v) = true := by
  induction v <;> intro i <;> simp [arrIdxObj, isObjChain, *]

/-- Index-keyed object chains built from strings are well-formed chains. -/
theorem isObjChain_strIdxObj (l : List Char) : ∀ i : Nat, isObjChain (strIdxObj i l) = true := by
  induction l <;> intro i <;> simp [strIdxObj, isObjChain, *]

/-- The object spread of any value is a well-formed object chain. -/
theorem isObjChain_spreadToObj (v : Value) : isObjChain (spreadToObj v) = true := by
  induction v <;>
    simp [spreadToObj, isObjChain, isObjChain_arrIdxObj, isObjChain_strIdxObj, *]

/-- Assignment preserves well-formed object chains. -/
theorem isObjChain_setKey (r : Value) (k : String) (v : Value)
    (h : isObjChain r = true) : isObjChain (setKey r k v) = true := by
  induction r with
  | vObjCons ka va rest ihva ihrest =>
      simp only [setKey]
      by_cases hk : ka == k <;> simp_all [isObjChain]
  | vObjNil => simp [setKey, isObjChain]
  | _ => simp_all [isObjChain]

/-- Reading back the key just assigned yields the assigned value. -/
theorem accessProp_setKey_self (r : Value) (k : String) (v : Value) :
    accessProp (setKey r k v) k = v := by
  induction r with
  | vObjCons ka va rest ihva ihrest =>
      simp only [setKey]
      by_cases hk : ka == k <;> simp_all [accessProp]
  | _ => simp [setKey, accessProp]

/-- Assignment to one key of a well-formed object chain does not change the
value stored under a different key. -/
theorem accessProp_setKey_ne (r : Value) (k k2 : String) (v : Value)
    (hr : isObjChain r = true) (h : k2 ≠ k) :
    accessProp (setKey r k v) k2 = accessProp r k2 := by
  induction r with
  | vObjCons ka va rest ihva ihrest =>
      simp only [setKey]
      by_cases hka : ka == k
      · have hkae : ka = k := by simpa using hka
        subst hkae
        simp [hka, accessProp, (by simpa using h.symm : ¬(ka == k2) = true)]
      · simp only [hka, if_neg (by simpa using (by simpa using hka : ¬ka = k))]
        simp only [accessProp]
        by_cases hka2 : ka == k2 <;>
          simp_all [isObjChain]
  | vObjNil =>
      simp [setKey, accessProp, (by simpa using h.symm : ¬(k == k2) = true)]
  | _ => simp_all [isObjChain]

/-- The merge loop processes one override entry by storing its merged slot
value and moving on. -/
theorem mergeGo_cons (b r : Value) (ko : String) (vo rest : Value) :
    mergeGo b r (vObjCons ko vo rest) =
      mergeGo b (setKey r ko (overrideSlot b ko vo)) rest := by
  cases vo <;> rfl

/-- The merge loop leaves keys that the override does not mention at their
value in the accumulated result. -/
theorem mergeGo_notMem (o : Value) : ∀ (b r : Value) (k : String),
    isObjChain r = true → objMem o k = false →
    accessProp (mergeGo b r o) k = accessProp r k := by
  induction o with
  | vObjCons ko vo rest ihvo ihrest =>
      intro b r k hr hm
      rw [mergeGo_cons]
      simp only [objMem, Bool.or_eq_false_iff] at hm
      rw [ihrest b _ k (isObjChain_setKey r ko _ hr) hm.2]
      have h1 : ¬(ko = k) := by simpa using hm.1
      exact accessProp_setKey_ne r ko k _ hr (Ne.symm h1)
  | _ => intro b r k hr hm; rfl

/-- For a key the override does mention (and binds only once), the merged
configuration stores exactly the override slot value at that key. -/
theorem mergeGo_mem (o : Value) : ∀ (b r : Value) (k : String),
    isObjChain r = true → objNodup o = true → objMem o k = true →
    accessProp (mergeGo b r o) k = overrideSlot b k (accessProp o k) := by
  induction o with
  | vObjCons ko vo rest ihvo ihrest =>
      intro b r k hr hnd hm
      rw [mergeGo_cons]
      simp only [objNodup, Bool.and_eq_true, Bool.not_eq_true'] at hnd
      by_cases hk : ko = k
      · subst hk
        rw [mergeGo_notMem rest b _ ko (isObjChain_setKey r ko _ hr) hnd.1]
        rw [accessProp_setKey_self]
        simp [accessProp]
      · have hm2 : objMem rest k = true := by
          simp only [objMem, Bool.or_eq_true] at hm
          rcases hm with h | h
          · exact absurd (by simpa using h) hk
          · exact h
        rw [ihrest b _ k (isObjChain_setKey r ko _ hr) hnd.2 hm2]
        simp [accessProp, hk]
  | _ =>
      intro b r k hr hnd hm
      simp [objMem] at hm

/-- A truthy plain object passes through `x || {}` unchanged. -/
theorem orEmptyObj_isObj (v : Value) (h : isObj v = true) : orEmptyObj v = v := by
  cases v <;> simp_all [isObj, orEmptyObj, jsTruthy]

/-- A value all of whose reachable string leaves are fixed points of the
per-string transform is itself a fixed point of the sanitizer. -/
theorem sanitizeFixedPoint (v : Value) (h : allFixed v = true) : sanitizeInput v = v := by
  induction v with
  | vObjCons k val rest ihval ihrest =>
      cases val <;> simp_all [sanitizeInput, allFixed]
  | vArrCons val rest ihval ihrest =>
      cases val <;> simp_all [sanitizeInput, allFixed]
  | _ => rfl

/-- A successful pure object-chain lookup agrees with JS property access. -/
theorem objLookup_accessProp (c : Value) : ∀ (key : String) (w : Value),
    objLookup c key = some w → accessProp c key = w := by
  induction c with
  | vObjCons ka va rest ihva ihrest =>
      intro key w h
      simp only [objLookup] at h
      by_cases hk : ka == key
      · simp only [hk, if_pos rfl] at h ⊢
        simp_all [accessProp]
      · simp_all [accessProp, objLookup]
  | _ => intro key w h; simp [objLookup] at h

/-- A successful lookup implies the receiver is an object, so the optional
chaining step coincides with plain property access. -/
theorem objLookup_getStep (c : Value) (key : String) (w : Value)
    (h : objLookup c key = some w) : getStep c key = w := by
  cases c
  case vObjCons ka va rest =>
    simp only [getStep]
    exact objLookup_accessProp (vObjCons ka va rest) key w h
  all_goals simp [objLookup] at h

/-- Folding the dotted-path accessor over segments that all resolve through
nested object chains returns the chained value. -/
theorem chainObj_foldl (ks : List String) : ∀ (c v : Value),
    chainObj c ks = some v → ks.foldl getStep c = v := by
  induction ks with
  | nil =>
      intro c v h
      simp only [chainObj, Option.some.injEq] at h
      simpa [List.foldl] using h
  | cons key ks ih =>
      intro c v h
      simp only [chainObj] at h
      cases hl : objLookup c key with
      | none => rw [hl] at h; cases h
      | some w =>
          rw [hl] at h
          simp only [List.foldl]
          rw [objLookup_getStep c key w hl]
          exact ih w v h

/-- A configuration whose security secrets are the given strings and whose
remaining validated fields are unexceptionable (port 3000, non-empty CORS
list, memory database, email disabled). -/
def cfgSecrets (ss js : String) : Value :=
  objOf [
    ("server", objOf [("port", vNum 3000)]),
    ("security", objOf [
      ("sessionSecret", vStr ss),
      ("jwtSecret", vStr js),
      ("corsOrigins", arrOf [vStr "https://app.example.com"])]),
    ("database", objOf [("type", vStr "memory")]),
    ("email", objOf [("enabled", vBool false)])]

/-- A configuration whose server port is the given integer and whose other
validated fields are unexceptionable. -/
def cfgWithPort (p : Int) : Value :=
  objOf [
    ("server", objOf [("port", vNum p)]),
    ("database", objOf [("type", vStr "memory")]),
    ("email", objOf [("enabled", vBool false)])]

/-- C1 counterexample: with the variable absent and NODE_ENV not set to
production, requireEnv returns the fixed 7-character literal placeholder
not-set — not a freshly generated random string of at least 64 hex
characters. -/
theorem c1_counterexample :
    requireEnv emptyEnv "SESSION_SECRET" = Except.ok "not-set" ∧
    ¬(64 ≤ ("not-set" : String).length) := by
  exact ⟨rfl, by decide⟩

/-- C1 amended: for every secret name with a falsy (absent or empty)
variable, requireEnv fails with the missing-variable error when NODE_ENV
is production, and otherwise returns the fixed literal placeholder
not-set; the random-secret fallback exists only in the staging overlay,
not in requireEnv. -/
theorem c1_amended (envv : EnvMap) (name : String)
    (habs : jsFalsyOpt (envv name) = true) :
    (envv "NODE_ENV" = some "production" →
      requireEnv envv name =
        Except.error ("Required environment variable " ++ name ++ " is not set")) ∧
    (envv "NODE_ENV" ≠ some "production" →
      requireEnv envv name = Except.ok "not-set") := by
  constructor
  · intro hp
    simp [requireEnv, habs, hp]
  · intro hp
    have hb : (envv "NODE_ENV" == some "production") = false := by
      simpa using hp
    cases hv : envv name with
    | none => simp [requireEnv, habs, hb, hv]
    | some s =>
        have hs : s = "" := by simpa [jsFalsyOpt, hv] using habs
        simp [requireEnv, habs, hb, hv, hs]

/-- C1 witness: requireEnv at a concrete absent variable in a concrete
non-production environment returns the placeholder. -/
theorem c1_witness : requireEnv emptyEnv "SOME_SECRET" = Except.ok "not-set" :=
  (c1_amended emptyEnv "SOME_SECRET" rfl).2 (by decide)

/-- C2 counterexample: a production validation run over 16-character
secrets (well below the 32-character minimum the claim asserts) reports no
error at all, because validateConfiguration only checks falsiness and the
dev- placeholder substring, never length. -/
theorem c2_counterexample :
    validateConfiguration (cfgSecrets "0123456789abcdef" "0123456789abcdef") "production" = [] ∧
    ("0123456789abcdef" : String).length < 32 := by
  exact ⟨rfl, by decide⟩

/-- C2 amended: in production, validateConfiguration reports the
missing-secret errors exactly when a secret is empty or contains the
dev- placeholder substring (length is never checked); resolving production
with SESSION_SECRET unset already fails inside requireEnv with the
missing-variable error; with the 64-character secret set everywhere
required, validation reports no error; and the SecurityConfig length
validator accepts the development placeholders since they are 32
characters or longer. -/
theorem c2_amended :
    (∀ ss js : String,
      validateConfiguration (cfgSecrets ss js) "production" =
        (if ss = "" ∨ containsSub ("dev-".data) ss.data = true then
          ["Production requires a secure SESSION_SECRET"] else []) ++
        (if js = "" ∨ containsSub ("dev-".data) js.data = true then
          ["Production requires a secure JWT_SECRET"] else [])) ∧
    loadConfiguration "production" prodEnvNoSecrets (fun _ => "r") =
      Except.error "Required environment variable SESSION_SECRET is not set" ∧
    validateConfiguration
      (okOr (loadConfiguration "production" prodEnvFull (fun _ => "r")) vObjNil)
      "production" = [] ∧
    secret64.length = 64 ∧
    validateConfig "dev-session-secret-change-in-production"
      "dev-jwt-secret-change-in-production" ["http://localhost:3000"] 100 = [] := by
  refine ⟨?_, rfl, rfl, by decide, by decide⟩
  intro ss js
  have hred : validateConfiguration (cfgSecrets ss js) "production" =
      (((((if !(ss != "") || containsSub ("dev-".data) ss.data then
          ["Production requires a secure SESSION_SECRET"] else []) ++
        (if !(js != "") || containsSub ("dev-".data) js.data then
          ["Production requires a secure JWT_SECRET"] else [])) ++ []) ++ []) ++ []) ++ [] := rfl
  rw [hred]
  by_cases hss : ss = "" <;> by_cases hcs : containsSub ("dev-".data) ss.data = true <;>
    by_cases hjs : js = "" <;> by_cases hcj : containsSub ("dev-".data) js.data = true <;>
      simp [hss, hcs, hjs, hcj]

/-- C3 amended: for the development, test and production environments the
resolved configuration does not depend on the randomness oracle at all, so
resolution is deterministic in the environment variables; staging (with
secrets unset) is the exception, witnessed separately. -/
theorem c3_amended (envv : EnvMap) (rng1 rng2 : Nat → String) :
    loadConfiguration "development" envv rng1 = loadConfiguration "development" envv rng2 ∧
    loadConfiguration "test" envv rng1 = loadConfiguration "test" envv rng2 ∧
    loadConfiguration "production" envv rng1 = loadConfiguration "production" envv rng2 := by
  refine ⟨?_, ?_, ?_⟩ <;>
    · unfold loadConfiguration getEnvironmentConfiguration
      cases getProductionConfig envv <;> rfl

/-- C3 counterexample: resolving staging twice with identical (empty)
environment variables but different random draws yields structurally
different configurations — the session secret embeds the fresh randomness,
so resolution is not deterministic in the environment variables alone. -/
theorem c3_counterexample :
    loadConfiguration "staging" emptyEnv (fun _ => "aaaa") ≠
    loadConfiguration "staging" emptyEnv (fun _ => "bbbb") := by
  intro h
  have ha : secOf (loadConfiguration "staging" emptyEnv (fun _ => "aaaa")) "sessionSecret"
      = vStr "aaaa" := rfl
  have hb : secOf (loadConfiguration "staging" emptyEnv (fun _ => "bbbb")) "sessionSecret"
      = vStr "bbbb" := rfl
  rw [h, hb] at ha
  injection ha with ha2
  exact absurd ha2 (by decide)

/-- C4 counterexample: the strict rate limiter also skips the health and
metrics paths, because createStrictRateLimiter does not override the
default skip predicate of createRateLimiter. -/
theorem c4_counterexample :
    (createStrictRateLimiter 900000 100).skip "/health" = true ∧
    (createStrictRateLimiter 900000 100).skip "/metrics" = true := by
  exact ⟨rfl, rfl⟩

/-- C4 amended: the general limiter exempts exactly the health and metrics
paths; the strict limiter does use the fixed 15-minute window and max 5,
but it inherits the very same default skip predicate, so the health and
metrics paths are exempt from it as well. -/
theorem c4_amended (w m : Int) (path : String) :
    (createRateLimiter w m {}).skip path = (path == "/health" || path == "/metrics") ∧
    (createStrictRateLimiter w m).skip path = (path == "/health" || path == "/metrics") ∧
    (createStrictRateLimiter w m).windowMs = 900000 ∧
    (createStrictRateLimiter w m).max = 5 := by
  exact ⟨rfl, rfl, rfl, rfl⟩

/-- C5 counterexample: with CORS_ORIGINS absent, production resolution
yields the overlay literal default list containing https://taskmanager.com
— not the empty list the claim asserts. -/
theorem c5_counterexample :
    secOf (loadConfiguration "production" prodEnvFull (fun _ => "r")) "corsOrigins"
      = arrOf [vStr "https://taskmanager.com"] ∧
    arrOf [vStr "https://taskmanager.com"] ≠ arrOf [] := by
  exact ⟨rfl, by decide⟩

/-- C5 amended: when CORS_ORIGINS is set, resolution splits it on commas,
trims each entry and drops empty entries; when it is absent,
resolve(production) yields the production overlay literal default list
["https://taskmanager.com"].  (The day5 ConfigManager variant does default
to the empty list when the variable is absent, but it splits without
trimming or dropping empty entries.) -/
theorem c5_amended :
    secOf (loadConfiguration "production" prodEnvCors (fun _ => "r")) "corsOrigins"
      = arrOf [vStr "https://a.example", vStr "https://b.example"] ∧
    secOf (loadConfiguration "production" prodEnvFull (fun _ => "r")) "corsOrigins"
      = arrOf [vStr "https://taskmanager.com"] ∧
    configManagerProductionCors emptyEnv = [] ∧
    configManagerProductionCors
      (fun n => if n = "CORS_ORIGINS" then some " https://a.example ," else none)
      = [" https://a.example ", ""] := by
  exact ⟨rfl, rfl, rfl, rfl⟩

/-- C6 counterexample: merging an overlay whose value at a key is a mapping
onto a base whose value at that key is a list does not replace the list
with the overlay mapping — the spread of the base list leaks its index
entries into the result. -/
theorem c6_counterexample :
    accessProp
      (mergeConfigurations (objOf [("a", arrOf [vNum 1, vNum 2])])
        (objOf [("a", objOf [("x", vNum 3)])]))
      "a" ≠ objOf [("x", vNum 3)] := by
  decide

/-- C6 amended: for every key the overlay binds (once), the merged value is
overrideSlot: a non-mapping overlay value (including every list) replaces
the base value entirely with no array concatenation; a mapping overlay
value recurses into `base[key] || {}` — in particular, when both sides are
mappings the merge recurses, but when the base value is a list or a string
its spread index entries are retained under the overlay mapping. -/
theorem c6_amended (b o : Value) (k : String)
    (hnd : objNodup o = true) (hm : objMem o k = true) :
    accessProp (mergeConfigurations b o) k = overrideSlot b k (accessProp o k) ∧
    (isObj (accessProp o k) = false →
      accessProp (mergeConfigurations b o) k = accessProp o k) ∧
    (isObj (accessProp b k) = true → isObj (accessProp o k) = true →
      accessProp (mergeConfigurations b o) k =
        mergeConfigurations (accessProp b k) (accessProp o k)) := by
  have main : accessProp (mergeConfigurations b o) k = overrideSlot b k (accessProp o k) :=
    mergeGo_mem o b (spreadToObj b) k (isObjChain_spreadToObj b) hnd hm
  refine ⟨main, ?_, ?_⟩
  · intro hno
    rw [main]
    cases hv : accessProp o k <;> simp_all [overrideSlot, isObj]
  · intro hb ho
    rw [main]
    cases hv : accessProp o k <;> simp_all [isObj]
    · -- overlay value is the empty mapping
      simp [overrideSlot, orEmptyObj_isObj _ hb, mergeConfigurations, mergeGo]
    · -- overlay value is a non-empty mapping
      simp [overrideSlot, orEmptyObj_isObj _ hb]

/-- C6 witness: the amended merge equation at a concrete base and overlay. -/
theorem c6_witness :
    accessProp (mergeConfigurations (objOf [("a", vNum 1)]) (objOf [("a", vNum 2)])) "a"
      = vNum 2 :=
  ((c6_amended (objOf [("a", vNum 1)]) (objOf [("a", vNum 2)]) "a"
      (by decide) (by decide)).1).trans (by decide)

/-- C7 counterexample: the sanitizer is not idempotent — removing one
javascript: occurrence from the leaf javajavascript:script: splices the
surrounding text into a fresh javascript: occurrence, which a second pass
removes. -/
theorem c7_counterexample :
    sanitizeInput (sanitizeInput (objOf [("a", vStr "javajavascript:script:")])) ≠
    sanitizeInput (objOf [("a", vStr "javajavascript:script:")]) := by
  decide

/-- C7 amended: sanitize(sanitize(x)) = sanitize(x) holds exactly when the
first pass leaves every string leaf fixed (no residual removable pattern);
the removal passes behave as specified on the canonical examples, but
removals can concatenate surrounding text into new matches, so idempotence
fails in general. -/
theorem c7_amended :
    (∀ x : Value, allFixed (sanitizeInput x) = true →
      sanitizeInput (sanitizeInput x) = sanitizeInput x) ∧
    sanitizeString "<script>alert(1)</script>" = "" ∧
    sanitizeString "javascript:alert(1)" = "alert(1)" := by
  refine ⟨fun x h => sanitizeFixedPoint _ h, by decide, by decide⟩

/-- C7 witness: the conditional idempotence applied at a concrete benign
input. -/
theorem c7_witness :
    sanitizeInput (sanitizeInput (objOf [("name", vStr "hello world")])) =
    sanitizeInput (objOf [("name", vStr "hello world")]) :=
  c7_amended.1 (objOf [("name", vStr "hello world")]) (by decide)

/-- C8 counterexample: the test overlay resolves to port 0, which is
outside [1, 65535], yet validation reports no error at all — the truthiness
guard `if (port && ...)` skips the range check for port 0. -/
theorem c8_counterexample :
    accessProp (accessProp
      (okOr (loadConfiguration "test" emptyEnv (fun _ => "r")) vObjNil) "server") "port"
      = vNum 0 ∧
    validateConfiguration
      (okOr (loadConfiguration "test" emptyEnv (fun _ => "r")) vObjNil) "test" = [] := by
  exact ⟨rfl, rfl⟩

/-- C8 amended: validation reports the invalid-port error exactly for the
nonzero integer ports outside [1, 65535]; port 0 (set by the test overlay
to request an OS-assigned port) is exempted by the truthiness guard, and
ports within the range produce no error. -/
theorem c8_amended (p : Int) :
    validateConfiguration (cfgWithPort p) "development" =
      (if p ≠ 0 ∧ (p < 1 ∨ 65535 < p) then ["Invalid port number: " ++ toString p] else []) := by
  have hred : validateConfiguration (cfgWithPort p) "development" =
      (((if p != 0 && (decide (p < 1) || decide (65535 < p)) then
        ["Invalid port number: " ++ toString p] else []) ++ []) ++ []) := rfl
  rw [hred]
  by_cases h0 : p = 0 <;> by_cases h1 : p < 1 <;> by_cases h2 : 65535 < p <;>
    simp [h0, h1, h2]

/-- C9 (code bug): getSummary is documented as a read-only, logging-safe
summary, but its shallow copy shares every nested domain object with the
stored configuration, so its deletes strip security.sessionSecret (and the
other sensitive fields) out of the stored configuration itself: after one
getSummary call on the resolved development configuration the stored
session secret is gone. -/
theorem c9_bug :
    accessProp (accessProp
      (okOr (loadConfiguration "development" emptyEnv (fun _ => "r")) vObjNil)
      "security") "sessionSecret"
      = vStr "dev-session-secret-change-in-production" ∧
    accessProp (accessProp
      (getSummary (okOr (loadConfiguration "development" emptyEnv (fun _ => "r")) vObjNil)).2
      "security") "sessionSecret"
      = vUndef := by
  exact ⟨rfl, rfl⟩

/-- C10 counterexample: a dotted path whose intermediate segment resolves
to a list does not yield undefined — the list exposes its length (and its
elements) as properties, so get returns 1 here instead of the absent
value. -/
theorem c10_counterexample :
    get "a.length" (objOf [("a", arrOf [vNum 7])]) = vNum 1 ∧ vNum 1 ≠ vUndef := by
  exact ⟨rfl, by decide⟩

/-- C10 amended: get is total (the embedding is a total function and the
optional-chaining step absorbs null/undefined); when every segment
resolves through nested mappings it returns the stored value; a scalar,
boolean, null or undefined intermediate yields undefined — but list and
string intermediates expose their elements and length, so a non-mapping
intermediate does not always yield undefined. -/
theorem c10_amended :
    (∀ (path : String) (c v : Value),
      chainObj c (jsSplit '.' path) = some v → get path c = v) ∧
    (∀ (k : String) (n : Int) (b : Bool),
      getStep (vNum n) k = vUndef ∧ getStep (vBool b) k = vUndef ∧
      getStep vNull k = vUndef ∧ getStep vUndef k = vUndef) ∧
    (getStep (arrOf [vStr "https://ok.example"]) "0" = vStr "https://ok.example" ∧
      getStep (arrOf [vStr "https://ok.example"]) "length" = vNum 1 ∧
      getStep (vStr "ab") "length" = vNum 2) := by
  refine ⟨?_, ?_, by exact ⟨rfl, rfl, rfl⟩⟩
  · intro path c v h
    exact chainObj_foldl (jsSplit '.' path) c v h
  · intro k n b
    exact ⟨rfl, rfl, rfl, rfl⟩

/-- C10 witness: the mapping-resolution clause applied at a concrete
configuration and path. -/
theorem c10_witness :
    get "security.sessionSecret"
      (objOf [("security", objOf [("sessionSecret", vStr "abc")])]) = vStr "abc" :=
  c10_amended.1 "security.sessionSecret"
    (objOf [("security", objOf [("sessionSecret", vStr "abc")])]) (vStr "abc") (by decide)
